import Mathlib

/-!
Shallow embedding of the ALSA example repository (hkxs/ALSA).

The embedded code:
  - alsa_utils.c : configure_hw (eight-stage hardware negotiation pipeline)
                   and generate_sin (interleaved stereo sine-tone generator)
  - basic_pcm.c  : the duplicated configure_hw variant of the basic_pcm
                   example (stores the accepted rate in exact_sample_rate and
                   right-shifts the computed buffer size by two)
  - the example main routines, whose configure-failure guard is modelled by
    main_configure_guard

Modelling conventions:
  - C integers are modelled as Nat (unsigned) and Int (signed), with explicit
    mod 2^16 arithmetic where the 16-bit store in generate_sin matters.
  - The ALSA driver is modelled as a record of pure stage functions (Device);
    each negotiation call returns an Int status code (negative = failure,
    as the C checks with S_SUCCESS > err) and, for the near-style calls,
    the value written back through the in/out pointer.
  - printf diagnostics that carry information used by the spec (the
    non-fatal rate warning) are modelled as a list of notices; the driver
    calls issued are recorded in order as a list of events.
  - The double-precision sine evaluation sin(2*M_PI*n*f/fs) is abstracted as
    a rational-valued function sinf of (n, f, fs): every IEEE double value is
    a rational, so the abstraction is exact; multiplication of the sine value
    by Q_14 = 2^14 is exact in floating point, so it is modelled as exact
    rational multiplication followed by the C truncating cast.
-/

/-- S_SUCCESS, the success return value of the module (alsa_utils.h). -/
def S_SUCCESS : ℤ := 0

/-- S_ERROR, the error return value of the module (alsa_utils.h). -/
def S_ERROR : ℤ := 1

/-- Q_14, the fixed-point scale constant (1<<14) of alsa_utils.h. -/
def Q_14 : ℕ := 1 <<< 14

/-- C truncation toward zero of a real (here rational) value, as performed by
a C floating-point-to-integer conversion. -/
def ctruncQ (q : ℚ) : ℤ := if 0 ≤ q then ⌊q⌋ else ⌈q⌉

/-- Reinterpretation of an integer as a 16-bit two's-complement signed value:
the result of storing the low 16 bits of x into an int16_t object. -/
def int16_of_bits (x : ℤ) : ℤ :=
  if x % 65536 < 32768 then x % 65536 else x % 65536 - 65536

/-- The sample value generate_sin stores for sample index n:
the C expression (uint16_t)(sin_val*Q_14) assigned to the int16_t slot
data[2*n], where sin_val abstracts sin(2*M_PI*n*f/fs). -/
def sampleValue (sinf : ℕ → ℕ → ℕ → ℚ) (f fs n : ℕ) : ℤ :=
  int16_of_bits (ctruncQ (sinf n f fs * (Q_14 : ℚ)))

/-- Pointwise store into a buffer modelled as an index-to-value map. -/
def setIdx (b : ℕ → ℤ) (i : ℕ) (v : ℤ) : ℕ → ℤ :=
  fun j => if j = i then v else b j

/-- One iteration of the generate_sin loop body:
data[2*n] = (uint16_t)(sin_val*Q_14); data[2*n+1] = data[2*n]. -/
def gsStep (sinf : ℕ → ℕ → ℕ → ℚ) (f fs : ℕ) (b : ℕ → ℤ) (n : ℕ) : ℕ → ℤ :=
  let b1 := setIdx b (2 * n) (sampleValue sinf f fs n)
  setIdx b1 (2 * n + 1) (b1 (2 * n))

/-- The generate_sin loop, run for sample indices 0, 1, ..., len-1 in order. -/
def gsLoop (sinf : ℕ → ℕ → ℕ → ℚ) (f fs : ℕ) (b : ℕ → ℤ) : ℕ → (ℕ → ℤ)
  | 0 => b
  | n + 1 => gsStep sinf f fs (gsLoop sinf f fs b n) n

/-- Embedding of generate_sin (alsa_utils.c). The data pointer is an optional
buffer; err is initialized to S_ERROR and set to S_SUCCESS only after the
loop runs under the NULL!=data check. Returns the status and the final
buffer contents (none when the pointer was null: no writes occurred). -/
def generate_sin (data : Option (ℕ → ℤ)) (f fs : ℕ) (data_length : ℕ)
    (sinf : ℕ → ℕ → ℕ → ℚ) : ℤ × Option (ℕ → ℤ) :=
  match data with
  | none => (S_ERROR, none)
  | some b => (S_SUCCESS, some (gsLoop sinf f fs b data_length))

lemma int16_of_bits_eq_self {x : ℤ} (h1 : -32768 ≤ x) (h2 : x < 32768) :
    int16_of_bits x = x := by
  unfold int16_of_bits
  omega

lemma ctruncQ_abs_le {q : ℚ} {B : ℕ} (h : |q| ≤ (B : ℚ)) :
    -(B : ℤ) ≤ ctruncQ q ∧ ctruncQ q ≤ (B : ℤ) := by
  obtain ⟨h1, h2⟩ := abs_le.mp h
  unfold ctruncQ
  split
  case isTrue hq =>
    refine ⟨?_, ?_⟩
    · have hf : (0 : ℤ) ≤ ⌊q⌋ := Int.le_floor.mpr (by exact_mod_cast hq)
      omega
    · have hf := Int.floor_mono h2
      simpa using hf
  case isFalse hq =>
    push_neg at hq
    refine ⟨?_, ?_⟩
    · have hc := Int.ceil_mono h1
      have hcast : ((-(B : ℤ) : ℤ) : ℚ) = -(B : ℚ) := by push_cast; ring
      rw [← hcast, Int.ceil_intCast] at hc
      exact hc
    · have hc : ⌈q⌉ ≤ ⌈(0 : ℚ)⌉ := Int.ceil_mono hq.le
      simp at hc
      omega

lemma Q_14_eq : Q_14 = 16384 := by
  norm_num [Q_14, Nat.shiftLeft_eq]

lemma sampleValue_eq_trunc {sinf : ℕ → ℕ → ℕ → ℚ} {f fs n : ℕ}
    (h : |sinf n f fs| ≤ 1) :
    sampleValue sinf f fs n = ctruncQ (sinf n f fs * (Q_14 : ℚ)) := by
  have hq14 : ((Q_14 : ℕ) : ℚ) = 16384 := by rw [Q_14_eq]; norm_num
  have hb : |sinf n f fs * (Q_14 : ℚ)| ≤ ((Q_14 : ℕ) : ℚ) := by
    rw [abs_mul, hq14]
    have habs : |(16384 : ℚ)| = 16384 := by norm_num
    rw [habs]
    nlinarith [abs_nonneg (sinf n f fs)]
  have hbounds := ctruncQ_abs_le hb
  have hq14z : ((Q_14 : ℕ) : ℤ) = 16384 := by rw [Q_14_eq]; norm_num
  unfold sampleValue
  apply int16_of_bits_eq_self
  · omega
  · omega

lemma gsLoop_apply_left (sinf : ℕ → ℕ → ℕ → ℚ) (f fs : ℕ) (b : ℕ → ℤ) :
    ∀ len n, n < len → gsLoop sinf f fs b len (2 * n) = sampleValue sinf f fs n := by
  intro len
  induction len with
  | zero => intro n h; omega
  | succ m ih =>
    intro n h
    by_cases hn : n = m
    · subst hn
      show gsStep sinf f fs (gsLoop sinf f fs b n) n (2 * n) = _
      unfold gsStep setIdx
      simp only
      rw [if_neg (by omega)]
      simp
    · have hnm : n < m := by omega
      show gsStep sinf f fs (gsLoop sinf f fs b m) m (2 * n) = _
      unfold gsStep setIdx
      simp only
      rw [if_neg (by omega), if_neg (by omega)]
      exact ih n hnm

lemma gsLoop_apply_right (sinf : ℕ → ℕ → ℕ → ℚ) (f fs : ℕ) (b : ℕ → ℤ) :
    ∀ len n, n < len →
      gsLoop sinf f fs b len (2 * n + 1) = sampleValue sinf f fs n := by
  intro len
  induction len with
  | zero => intro n h; omega
  | succ m ih =>
    intro n h
    by_cases hn : n = m
    · subst hn
      show gsStep sinf f fs (gsLoop sinf f fs b n) n (2 * n + 1) = _
      unfold gsStep setIdx
      simp
    · have hnm : n < m := by omega
      show gsStep sinf f fs (gsLoop sinf f fs b m) m (2 * n + 1) = _
      unfold gsStep setIdx
      simp only
      rw [if_neg (by omega), if_neg (by omega)]
      exact ih n hnm

example : gsLoop (fun _ _ _ => (0 : ℚ)) 1 4 (fun _ => 5) 2 0 = 0 := by
  rw [gsLoop_apply_left (fun _ _ _ => (0 : ℚ)) 1 4 (fun _ => 5) 2 0 (by omega)]
  norm_num [sampleValue, ctruncQ, int16_of_bits]

/-- The hardware configuration record of alsa_utils.h (hw_configuration).
Enum-valued fields (access type, format) and directions are modelled as
numeric codes, matching their C representation. -/
structure hw_configuration where
  sample_rate : ℕ
  sample_rate_direction : ℤ
  frame_size_direction : ℤ
  period_size : ℕ
  periods : ℕ
  access_type : ℕ
  num_channels : ℕ
  format : ℕ
deriving DecidableEq

/-- The hardware configuration record of basic_pcm.c, which additionally has
the exact_sample_rate field (the rate set by the sound card). -/
structure basic_pcm_hw_configuration where
  sample_rate : ℕ
  exact_sample_rate : ℕ
  sample_rate_direction : ℤ
  frame_size_direction : ℤ
  period_size : ℕ
  periods : ℕ
  access_type : ℕ
  num_channels : ℕ
  format : ℕ
deriving DecidableEq

/-- The ALSA driver, modelled as a record of pure stage behaviours. Each
field gives the status code (negative on failure, as the C code checks
with S_SUCCESS > err) of one negotiation call; the near-style calls also
give the value the driver writes back through the in/out pointer. -/
structure Device where
  params_any : ℤ
  set_access : ℕ → ℤ
  set_format : ℕ → ℤ
  set_rate : ℕ → ℤ → ℤ × ℕ
  set_channels : ℕ → ℤ
  set_periods : ℕ → ℤ → ℤ × ℕ
  set_buffer_size : ℕ → ℤ × ℕ
  commit : ℤ

/-- One driver call issued by configure_hw, recorded with the value it
submitted to the driver. -/
inductive Event where
  | paramsAny : Event
  | setAccess : ℕ → Event
  | setFormat : ℕ → Event
  | setRate : ℕ → ℤ → Event
  | setChannels : ℕ → Event
  | setPeriods : ℕ → ℤ → Event
  | setBufferSize : ℕ → Event
  | commit : Event
deriving DecidableEq

/-- A non-fatal diagnostic emitted by configure_hw: the warning printed when
the rate accepted by the driver differs from the rate requested on entry
(arguments: requested rate, accepted rate). -/
inductive Notice where
  | rateWarning : ℕ → ℕ → Notice
deriving DecidableEq

/-- The observable outcome of a configure_hw call: the int8_t return value,
the final contents of the configuration record, the driver calls issued in
order, and the non-fatal notices emitted. -/
structure ConfigureResult where
  err : ℤ
  config : hw_configuration
  trace : List Event
  notices : List Notice

/-- Outcome of the basic_pcm.c variant of configure_hw. -/
structure BasicPcmConfigureResult where
  err : ℤ
  config : basic_pcm_hw_configuration
  trace : List Event
  notices : List Notice

/-- Embedding of configure_hw (alsa_utils.c). Eight driver calls in order:
capability probe (snd_pcm_hw_params_any), set access, set format, set rate
(near, in/out through the sample_rate field), set channels, set periods
(near, in/out through the periods field), set buffer size (near, on the
local variable buffer_size = period_size*periods, not read back), and the
final commit (snd_pcm_hw_params). Each call is followed by an
if (S_SUCCESS > err) return S_ERROR check; the rate warning is printed
after the rate call succeeds, comparing against the saved desired rate. -/
def configure_hw (dev : Device) (cfg : hw_configuration) : ConfigureResult :=
  if dev.params_any < 0 then
    ⟨S_ERROR, cfg, [Event.paramsAny], []⟩
  else if dev.set_access cfg.access_type < 0 then
    ⟨S_ERROR, cfg, [Event.paramsAny, Event.setAccess cfg.access_type], []⟩
  else if dev.set_format cfg.format < 0 then
    ⟨S_ERROR, cfg,
      [Event.paramsAny, Event.setAccess cfg.access_type,
       Event.setFormat cfg.format], []⟩
  else
    let rateRes := dev.set_rate cfg.sample_rate cfg.sample_rate_direction
    let cfgR := { cfg with sample_rate := rateRes.2 }
    if rateRes.1 < 0 then
      ⟨S_ERROR, cfgR,
        [Event.paramsAny, Event.setAccess cfg.access_type,
         Event.setFormat cfg.format,
         Event.setRate cfg.sample_rate cfg.sample_rate_direction], []⟩
    else
      let warns := if cfgR.sample_rate ≠ cfg.sample_rate then
          [Notice.rateWarning cfg.sample_rate cfgR.sample_rate] else []
      if dev.set_channels cfg.num_channels < 0 then
        ⟨S_ERROR, cfgR,
          [Event.paramsAny, Event.setAccess cfg.access_type,
           Event.setFormat cfg.format,
           Event.setRate cfg.sample_rate cfg.sample_rate_direction,
           Event.setChannels cfg.num_channels], warns⟩
      else
        let perRes := dev.set_periods cfg.periods cfg.frame_size_direction
        let cfgP := { cfgR with periods := perRes.2 }
        if perRes.1 < 0 then
          ⟨S_ERROR, cfgP,
            [Event.paramsAny, Event.setAccess cfg.access_type,
             Event.setFormat cfg.format,
             Event.setRate cfg.sample_rate cfg.sample_rate_direction,
             Event.setChannels cfg.num_channels,
             Event.setPeriods cfg.periods cfg.frame_size_direction], warns⟩
        else
          let buffer_size := cfgP.period_size * cfgP.periods
          if (dev.set_buffer_size buffer_size).1 < 0 then
            ⟨S_ERROR, cfgP,
              [Event.paramsAny, Event.setAccess cfg.access_type,
               Event.setFormat cfg.format,
               Event.setRate cfg.sample_rate cfg.sample_rate_direction,
               Event.setChannels cfg.num_channels,
               Event.setPeriods cfg.periods cfg.frame_size_direction,
               Event.setBufferSize buffer_size], warns⟩
          else if dev.commit < 0 then
            ⟨S_ERROR, cfgP,
              [Event.paramsAny, Event.setAccess cfg.access_type,
               Event.setFormat cfg.format,
               Event.setRate cfg.sample_rate cfg.sample_rate_direction,
               Event.setChannels cfg.num_channels,
               Event.setPeriods cfg.periods cfg.frame_size_direction,
               Event.setBufferSize buffer_size, Event.commit], warns⟩
          else
            ⟨S_SUCCESS, cfgP,
              [Event.paramsAny, Event.setAccess cfg.access_type,
               Event.setFormat cfg.format,
               Event.setRate cfg.sample_rate cfg.sample_rate_direction,
               Event.setChannels cfg.num_channels,
               Event.setPeriods cfg.periods cfg.frame_size_direction,
               Event.setBufferSize buffer_size, Event.commit], warns⟩

/-- Embedding of the configure_hw function duplicated inside basic_pcm.c.
It differs from the alsa_utils.c version in two places: the rate call goes
through the exact_sample_rate field (initialized from sample_rate just
before the call; sample_rate itself is never written), and the buffer size
submitted is (period_size*periods)>>2. -/
def basic_pcm_configure_hw (dev : Device) (cfg : basic_pcm_hw_configuration) :
    BasicPcmConfigureResult :=
  if dev.params_any < 0 then
    ⟨S_ERROR, cfg, [Event.paramsAny], []⟩
  else if dev.set_access cfg.access_type < 0 then
    ⟨S_ERROR, cfg, [Event.paramsAny, Event.setAccess cfg.access_type], []⟩
  else if dev.set_format cfg.format < 0 then
    ⟨S_ERROR, cfg,
      [Event.paramsAny, Event.setAccess cfg.access_type,
       Event.setFormat cfg.format], []⟩
  else
    let rateRes := dev.set_rate cfg.sample_rate cfg.sample_rate_direction
    let cfgR := { cfg with exact_sample_rate := rateRes.2 }
    if rateRes.1 < 0 then
      ⟨S_ERROR, cfgR,
        [Event.paramsAny, Event.setAccess cfg.access_type,
         Event.setFormat cfg.format,
         Event.setRate cfg.sample_rate cfg.sample_rate_direction], []⟩
    else
      let warns := if cfgR.sample_rate ≠ cfgR.exact_sample_rate then
          [Notice.rateWarning cfgR.sample_rate cfgR.exact_sample_rate] else []
      if dev.set_channels cfg.num_channels < 0 then
        ⟨S_ERROR, cfgR,
          [Event.paramsAny, Event.setAccess cfg.access_type,
           Event.setFormat cfg.format,
           Event.setRate cfg.sample_rate cfg.sample_rate_direction,
           Event.setChannels cfg.num_channels], warns⟩
      else
        let perRes := dev.set_periods cfg.periods cfg.frame_size_direction
        let cfgP := { cfgR with periods := perRes.2 }
        if perRes.1 < 0 then
          ⟨S_ERROR, cfgP,
            [Event.paramsAny, Event.setAccess cfg.access_type,
             Event.setFormat cfg.format,
             Event.setRate cfg.sample_rate cfg.sample_rate_direction,
             Event.setChannels cfg.num_channels,
             Event.setPeriods cfg.periods cfg.frame_size_direction], warns⟩
        else
          let buffer_size := (cfgP.period_size * cfgP.periods) >>> 2
          if (dev.set_buffer_size buffer_size).1 < 0 then
            ⟨S_ERROR, cfgP,
              [Event.paramsAny, Event.setAccess cfg.access_type,
               Event.setFormat cfg.format,
               Event.setRate cfg.sample_rate cfg.sample_rate_direction,
               Event.setChannels cfg.num_channels,
               Event.setPeriods cfg.periods cfg.frame_size_direction,
               Event.setBufferSize buffer_size], warns⟩
          else if dev.commit < 0 then
            ⟨S_ERROR, cfgP,
              [Event.paramsAny, Event.setAccess cfg.access_type,
               Event.setFormat cfg.format,
               Event.setRate cfg.sample_rate cfg.sample_rate_direction,
               Event.setChannels cfg.num_channels,
               Event.setPeriods cfg.periods cfg.frame_size_direction,
               Event.setBufferSize buffer_size, Event.commit], warns⟩
          else
            ⟨S_SUCCESS, cfgP,
              [Event.paramsAny, Event.setAccess cfg.access_type,
               Event.setFormat cfg.format,
               Event.setRate cfg.sample_rate cfg.sample_rate_direction,
               Event.setChannels cfg.num_channels,
               Event.setPeriods cfg.periods cfg.frame_size_direction,
               Event.setBufferSize buffer_size, Event.commit], warns⟩

/-- The number of periods the driver reports back at the periods stage. -/
def negotiated_periods (dev : Device) (cfg : hw_configuration) : ℕ :=
  (dev.set_periods cfg.periods cfg.frame_size_direction).2

/-- The full eight-call trace configure_hw issues when no stage fails. -/
def full_trace (dev : Device) (cfg : hw_configuration) : List Event :=
  [Event.paramsAny, Event.setAccess cfg.access_type,
   Event.setFormat cfg.format,
   Event.setRate cfg.sample_rate cfg.sample_rate_direction,
   Event.setChannels cfg.num_channels,
   Event.setPeriods cfg.periods cfg.frame_size_direction,
   Event.setBufferSize (cfg.period_size * negotiated_periods dev cfg),
   Event.commit]

/-- The status codes the eight driver calls return, in pipeline order. The
input of every stage depends only on the configuration record and on the
write-backs of earlier stages, so the list is well defined for any device,
whether or not the pipeline aborts early. -/
def stage_codes (dev : Device) (cfg : hw_configuration) : List ℤ :=
  [dev.params_any, dev.set_access cfg.access_type, dev.set_format cfg.format,
   (dev.set_rate cfg.sample_rate cfg.sample_rate_direction).1,
   dev.set_channels cfg.num_channels,
   (dev.set_periods cfg.periods cfg.frame_size_direction).1,
   (dev.set_buffer_size (cfg.period_size * negotiated_periods dev cfg)).1,
   dev.commit]

/-- Index of the first failing stage (8 when every stage succeeds). -/
def first_failure (dev : Device) (cfg : hw_configuration) : ℕ :=
  List.findIdx (fun e => e < 0) (stage_codes dev cfg)

lemma configure_hw_characterization (dev : Device) (cfg : hw_configuration) :
    (configure_hw dev cfg).trace
        = (full_trace dev cfg).take (first_failure dev cfg + 1)
      ∧ ((configure_hw dev cfg).err = S_SUCCESS
          ↔ first_failure dev cfg = 8) := by
  by_cases h1 : dev.params_any < 0
  · have hfi : first_failure dev cfg = 0 := by
      simp [first_failure, stage_codes, List.findIdx_cons, h1]
    rw [hfi]
    refine ⟨?_, ?_⟩
    · simp [configure_hw, full_trace, h1]
    · simp [configure_hw, h1, S_SUCCESS, S_ERROR]
  by_cases h2 : dev.set_access cfg.access_type < 0
  · have hfi : first_failure dev cfg = 1 := by
      simp [first_failure, stage_codes, List.findIdx_cons, h1, h2]
    rw [hfi]
    refine ⟨?_, ?_⟩
    · simp [configure_hw, full_trace, h1, h2]
    · simp [configure_hw, h1, h2, S_SUCCESS, S_ERROR]
  by_cases h3 : dev.set_format cfg.format < 0
  · have hfi : first_failure dev cfg = 2 := by
      simp [first_failure, stage_codes, List.findIdx_cons, h1, h2, h3]
    rw [hfi]
    refine ⟨?_, ?_⟩
    · simp [configure_hw, full_trace, h1, h2, h3]
    · simp [configure_hw, h1, h2, h3, S_SUCCESS, S_ERROR]
  by_cases h4 : (dev.set_rate cfg.sample_rate cfg.sample_rate_direction).1 < 0
  · have hfi : first_failure dev cfg = 3 := by
      simp [first_failure, stage_codes, List.findIdx_cons, h1, h2, h3, h4]
    rw [hfi]
    refine ⟨?_, ?_⟩
    · simp [configure_hw, full_trace, h1, h2, h3, h4]
    · simp [configure_hw, h1, h2, h3, h4, S_SUCCESS, S_ERROR]
  by_cases h5 : dev.set_channels cfg.num_channels < 0
  · have hfi : first_failure dev cfg = 4 := by
      simp [first_failure, stage_codes, List.findIdx_cons, h1, h2, h3, h4, h5]
    rw [hfi]
    refine ⟨?_, ?_⟩
    · simp [configure_hw, full_trace, h1, h2, h3, h4, h5]
    · simp [configure_hw, h1, h2, h3, h4, h5, S_SUCCESS, S_ERROR]
  by_cases h6 : (dev.set_periods cfg.periods cfg.frame_size_direction).1 < 0
  · have hfi : first_failure dev cfg = 5 := by
      simp [first_failure, stage_codes, List.findIdx_cons,
        h1, h2, h3, h4, h5, h6]
    rw [hfi]
    refine ⟨?_, ?_⟩
    · simp [configure_hw, full_trace, h1, h2, h3, h4, h5, h6]
    · simp [configure_hw, h1, h2, h3, h4, h5, h6, S_SUCCESS, S_ERROR]
  by_cases h7 : (dev.set_buffer_size
      (cfg.period_size
        * (dev.set_periods cfg.periods cfg.frame_size_direction).2)).1 < 0
  · have hfi : first_failure dev cfg = 6 := by
      simp [first_failure, stage_codes, negotiated_periods, List.findIdx_cons,
        h1, h2, h3, h4, h5, h6, h7]
    rw [hfi]
    refine ⟨?_, ?_⟩
    · simp [configure_hw, full_trace, negotiated_periods,
        h1, h2, h3, h4, h5, h6, h7]
    · simp [configure_hw, negotiated_periods,
        h1, h2, h3, h4, h5, h6, h7, S_SUCCESS, S_ERROR]
  by_cases h8 : dev.commit < 0
  · have hfi : first_failure dev cfg = 7 := by
      simp [first_failure, stage_codes, negotiated_periods, List.findIdx_cons,
        h1, h2, h3, h4, h5, h6, h7, h8]
    rw [hfi]
    refine ⟨?_, ?_⟩
    · simp [configure_hw, full_trace, negotiated_periods,
        h1, h2, h3, h4, h5, h6, h7, h8]
    · simp [configure_hw, negotiated_periods,
        h1, h2, h3, h4, h5, h6, h7, h8, S_SUCCESS, S_ERROR]
  · have hfi : first_failure dev cfg = 8 := by
      simp [first_failure, stage_codes, negotiated_periods, List.findIdx_cons,
        h1, h2, h3, h4, h5, h6, h7, h8]
    rw [hfi]
    refine ⟨?_, ?_⟩
    · simp [configure_hw, full_trace, negotiated_periods,
        h1, h2, h3, h4, h5, h6, h7, h8]
    · simp [configure_hw, negotiated_periods,
        h1, h2, h3, h4, h5, h6, h7, h8, S_SUCCESS, S_ERROR]

/-- The configure-failure guard of the example main routines (basic_pcm.c
main and basic_pcm_playback.c main): if ( S_SUCCESS>err ). -/
def main_configure_guard (err : ℤ) : Bool := decide (S_SUCCESS > err)

lemma configure_hw_err_cases (dev : Device) (cfg : hw_configuration) :
    (configure_hw dev cfg).err = S_SUCCESS
      ∨ (configure_hw dev cfg).err = S_ERROR := by
  unfold configure_hw
  repeat' split
  all_goals simp [apply_ite ConfigureResult.err, S_SUCCESS, S_ERROR]
  all_goals (split_ifs <;> omega)

/-- A device that accepts every requested parameter unchanged. -/
def acceptDev : Device where
  params_any := 0
  set_access := fun _ => 0
  set_format := fun _ => 0
  set_rate := fun r _ => (0, r)
  set_channels := fun _ => 0
  set_periods := fun p _ => (0, p)
  set_buffer_size := fun s => (0, s)
  commit := 0

/-- A device whose access-mode negotiation fails (code -22, EINVAL). -/
def devFailAccess : Device := { acceptDev with set_access := fun _ => -22 }

/-- A device whose format negotiation fails (code -22, EINVAL). -/
def devFailFormat : Device := { acceptDev with set_format := fun _ => -22 }

/-- A device that accepts everything but reports rate 44100 regardless of
the requested rate. -/
def rateDev : Device := { acceptDev with set_rate := fun _ _ => (0, 44100) }

/-- The configuration the basic_pcm_playback.c example requests (48 kHz,
2048-frame periods, 2 periods, interleaved S16LE access code 3, format
code 2, stereo). -/
def cfg0 : hw_configuration where
  sample_rate := 48000
  sample_rate_direction := 0
  frame_size_direction := 0
  period_size := 2048
  periods := 2
  access_type := 3
  num_channels := 2
  format := 2

/-- The alsa_utils-style configuration with the buffer geometry of the
basic_pcm.c example (1024-frame periods, 1 period). -/
def cfg1024 : hw_configuration where
  sample_rate := 48000
  sample_rate_direction := 0
  frame_size_direction := 0
  period_size := 1024
  periods := 1
  access_type := 3
  num_channels := 2
  format := 2

/-- The configuration the basic_pcm.c example requests (48 kHz, 1024-frame
periods, 1 period, interleaved S16LE, stereo). -/
def bpCfg : basic_pcm_hw_configuration where
  sample_rate := 48000
  exact_sample_rate := 0
  sample_rate_direction := 0
  frame_size_direction := 0
  period_size := 1024
  periods := 1
  access_type := 3
  num_channels := 2
  format := 2

lemma full_trace_nodup (dev : Device) (cfg : hw_configuration) :
    (full_trace dev cfg).Nodup := by
  simp [full_trace]

/-- Claim C1: for every non-null output buffer, frequency f, sample rate
fs > 0, and sample index n below sample_count, generate_sin writes to the
left slot of frame n (index 2n) exactly the truncating signed-16-bit cast
of the sine value times 16384, with the scale constant exactly 1 <<< 14 and
no rounding. The hypothesis on sinf states that the abstracted double sine
evaluation lies in [-1, 1], which every sine implementation satisfies; under
it the uint16 cast path of the C code coincides with the direct truncating
signed-16-bit cast. -/
theorem generate_sin_left_sample (sinf : ℕ → ℕ → ℕ → ℚ)
    (f fs data_length n : ℕ) (buf : ℕ → ℤ) (hfs : 0 < fs)
    (hn : n < data_length) (hsin : |sinf n f fs| ≤ 1) :
    ((generate_sin (some buf) f fs data_length sinf).2.getD
        (fun _ => 0)) (2 * n)
      = ctruncQ (sinf n f fs * (Q_14 : ℚ))
    ∧ Q_14 = 1 <<< 14 ∧ Q_14 = 16384 := by
  refine ⟨?_, rfl, Q_14_eq⟩
  show gsLoop sinf f fs buf data_length (2 * n) = _
  rw [gsLoop_apply_left sinf f fs buf data_length n hn]
  exact sampleValue_eq_trunc hsin

/-- Witness for C1 at a concrete input. -/
theorem generate_sin_left_sample_witness :
    (0 : ℕ) < 1 ∧ (0 : ℕ) < 1 ∧ |(fun _ _ _ => (0 : ℚ)) 0 1 1| ≤ 1
    ∧ (((generate_sin (some (fun _ => 0)) 1 1 1
          (fun _ _ _ => 0)).2.getD (fun _ => 0)) (2 * 0)
        = ctruncQ ((fun _ _ _ => (0 : ℚ)) 0 1 1 * (Q_14 : ℚ))
      ∧ Q_14 = 1 <<< 14 ∧ Q_14 = 16384) :=
  ⟨by norm_num, by norm_num, by norm_num,
    generate_sin_left_sample (fun _ _ _ => 0) 1 1 1 0 (fun _ => 0)
      (by norm_num) (by norm_num) (by norm_num)⟩

/-- Claim C9: for every non-null buffer and frame index n below
sample_count, generate_sin stores the same value in the left slot 2n and
the right slot 2n+1 of frame n (mono duplicated to interleaved stereo). -/
theorem generate_sin_stereo_duplicate (sinf : ℕ → ℕ → ℕ → ℚ)
    (f fs data_length n : ℕ) (buf : ℕ → ℤ) (hn : n < data_length) :
    ((generate_sin (some buf) f fs data_length sinf).2.getD
        (fun _ => 0)) (2 * n)
      = ((generate_sin (some buf) f fs data_length sinf).2.getD
          (fun _ => 0)) (2 * n + 1) := by
  show gsLoop sinf f fs buf data_length (2 * n)
      = gsLoop sinf f fs buf data_length (2 * n + 1)
  rw [gsLoop_apply_left sinf f fs buf data_length n hn,
    gsLoop_apply_right sinf f fs buf data_length n hn]

/-- Witness for C9 at a concrete input. -/
theorem generate_sin_stereo_duplicate_witness :
    (0 : ℕ) < 1
    ∧ ((generate_sin (some (fun _ => 0)) 1 1 1
          (fun _ _ _ => 0)).2.getD (fun _ => 0)) (2 * 0)
      = ((generate_sin (some (fun _ => 0)) 1 1 1
          (fun _ _ _ => 0)).2.getD (fun _ => 0)) (2 * 0 + 1) :=
  ⟨by norm_num,
    generate_sin_stereo_duplicate (fun _ _ _ => 0) 1 1 1 0 (fun _ => 0)
      (by norm_num)⟩

/-- Claim C7: generate_sin fails (with the single module error value
S_ERROR, the only error the code can report, the NullBuffer condition of
the spec) exactly when the destination buffer is null, performing no writes
in that case, and succeeds for every non-null buffer. -/
theorem generate_sin_null_iff_error (sinf : ℕ → ℕ → ℕ → ℚ)
    (f fs data_length : ℕ) :
    generate_sin none f fs data_length sinf = (S_ERROR, none)
    ∧ (∀ buf, (generate_sin (some buf) f fs data_length sinf).1 = S_SUCCESS)
    ∧ (∀ data, ((generate_sin data f fs data_length sinf).1 = S_ERROR
        ↔ data = none)) := by
  refine ⟨rfl, fun buf => rfl, fun data => ?_⟩
  cases data with
  | none => simp [generate_sin]
  | some b => simp [generate_sin, S_SUCCESS, S_ERROR]

/-- Claim C10: generate_sin does not check its sample-rate precondition:
called with a non-null buffer and fs = 0 it still runs the per-sample loop,
evaluating the abstracted sine expression sin(2*M_PI*n*f/fs) at fs = 0 (an
unguarded division by zero in the C expression) and storing the resulting
sample, and it returns S_SUCCESS rather than any error. -/
theorem generate_sin_zero_rate_unchecked (sinf : ℕ → ℕ → ℕ → ℚ)
    (f data_length n : ℕ) (buf : ℕ → ℤ) (hn : n < data_length) :
    (generate_sin (some buf) f 0 data_length sinf).1 = S_SUCCESS
    ∧ ((generate_sin (some buf) f 0 data_length sinf).2.getD
        (fun _ => 0)) (2 * n)
      = int16_of_bits (ctruncQ (sinf n f 0 * (Q_14 : ℚ))) := by
  refine ⟨rfl, ?_⟩
  show gsLoop sinf f 0 buf data_length (2 * n) = _
  rw [gsLoop_apply_left sinf f 0 buf data_length n hn]
  rfl

/-- Witness for C10 at a concrete input. -/
theorem generate_sin_zero_rate_unchecked_witness :
    (0 : ℕ) < 1
    ∧ ((generate_sin (some (fun _ => 0)) 1 0 1 (fun _ _ _ => 0)).1 = S_SUCCESS
      ∧ ((generate_sin (some (fun _ => 0)) 1 0 1
          (fun _ _ _ => 0)).2.getD (fun _ => 0)) (2 * 0)
        = int16_of_bits (ctruncQ ((fun _ _ _ => (0 : ℚ)) 0 1 0 * (Q_14 : ℚ)))) :=
  ⟨by norm_num,
    generate_sin_zero_rate_unchecked (fun _ _ _ => 0) 1 1 0 (fun _ => 0)
      (by norm_num)⟩

/-- Claim C8: configure_hw is a fail-fast pipeline. For every device and
configuration, the trace of driver calls is exactly the prefix of the full
eight-call sequence that ends with the first failing call (the whole
sequence when none fails, in which case and only in which case the result
is S_SUCCESS), and no call is ever repeated (no retries) nor is any call
outside the pipeline issued (no rollback). -/
theorem configure_hw_fail_fast (dev : Device) (cfg : hw_configuration) :
    (configure_hw dev cfg).trace
        = (full_trace dev cfg).take (first_failure dev cfg + 1)
    ∧ ((configure_hw dev cfg).err = S_SUCCESS
        ↔ first_failure dev cfg = 8)
    ∧ (configure_hw dev cfg).trace.Nodup := by
  obtain ⟨ht, hiff⟩ := configure_hw_characterization dev cfg
  refine ⟨ht, hiff, ?_⟩
  rw [ht]
  exact List.Nodup.sublist (List.take_sublist _ _) (full_trace_nodup dev cfg)

/-- Claim C6: configure_hw returns only S_SUCCESS = 0 and S_ERROR = 1, both
non-negative, so the guard if ( S_SUCCESS>err ) used by the example main
routines after the configure_hw call never fires: the configure-failure
branch is unreachable and the session proceeds even when configuration
failed. -/
theorem configure_hw_error_undetectable (dev : Device)
    (cfg : hw_configuration) :
    ((configure_hw dev cfg).err = S_SUCCESS
      ∨ (configure_hw dev cfg).err = S_ERROR)
    ∧ main_configure_guard ((configure_hw dev cfg).err) = false := by
  refine ⟨configure_hw_err_cases dev cfg, ?_⟩
  rcases configure_hw_err_cases dev cfg with h | h <;>
    simp [main_configure_guard, h, S_SUCCESS, S_ERROR]

/-- Claim C3, counterexample: two different failing stages (access failure
and format failure, visibly distinct traces) return the same error value,
refuting the claim that distinct stages yield distinct error values. -/
theorem configure_hw_error_codes_not_distinct :
    (configure_hw devFailAccess cfg0).trace
        ≠ (configure_hw devFailFormat cfg0).trace
    ∧ (configure_hw devFailAccess cfg0).err = S_ERROR
    ∧ (configure_hw devFailFormat cfg0).err = S_ERROR
    ∧ (configure_hw devFailAccess cfg0).err
        = (configure_hw devFailFormat cfg0).err := by
  decide

/-- Claim C3, amended: every configuration-stage failure of configure_hw is
reported with the single error value S_ERROR, whatever the failing stage;
the return value does not discriminate the failing step (only the printed
diagnostic text differs). -/
theorem configure_hw_failure_uniform_error (dev : Device)
    (cfg : hw_configuration)
    (h : (configure_hw dev cfg).err ≠ S_SUCCESS) :
    (configure_hw dev cfg).err = S_ERROR := by
  rcases configure_hw_err_cases dev cfg with h0 | h1
  · exact absurd h0 h
  · exact h1

/-- Witness for the amended C3 at a concrete failing device. -/
theorem configure_hw_failure_uniform_error_witness :
    (configure_hw devFailAccess cfg0).err ≠ S_SUCCESS
    ∧ (configure_hw devFailAccess cfg0).err = S_ERROR :=
  ⟨by decide, configure_hw_failure_uniform_error devFailAccess cfg0 (by decide)⟩

/-- Claim C5: for every device that accepts all requested parameters
unchanged, configure_hw returns success after issuing exactly the eight
driver calls in the documented order (capability probe, access, format,
rate, channels, periods, buffer size, commit), and the sample_rate and
periods fields of the configuration record are unchanged on return. -/
theorem configure_hw_accepting_eight_calls (dev : Device)
    (cfg : hw_configuration)
    (h1 : 0 ≤ dev.params_any)
    (h2 : 0 ≤ dev.set_access cfg.access_type)
    (h3 : 0 ≤ dev.set_format cfg.format)
    (h4 : dev.set_rate cfg.sample_rate cfg.sample_rate_direction
        = (0, cfg.sample_rate))
    (h5 : 0 ≤ dev.set_channels cfg.num_channels)
    (h6 : dev.set_periods cfg.periods cfg.frame_size_direction
        = (0, cfg.periods))
    (h7 : 0 ≤ (dev.set_buffer_size (cfg.period_size * cfg.periods)).1)
    (h8 : 0 ≤ dev.commit) :
    (configure_hw dev cfg).err = S_SUCCESS
    ∧ (configure_hw dev cfg).trace
        = [Event.paramsAny, Event.setAccess cfg.access_type,
           Event.setFormat cfg.format,
           Event.setRate cfg.sample_rate cfg.sample_rate_direction,
           Event.setChannels cfg.num_channels,
           Event.setPeriods cfg.periods cfg.frame_size_direction,
           Event.setBufferSize (cfg.period_size * cfg.periods), Event.commit]
    ∧ (configure_hw dev cfg).config.sample_rate = cfg.sample_rate
    ∧ (configure_hw dev cfg).config.periods = cfg.periods := by
  have g1 : ¬ dev.params_any < 0 := not_lt.mpr h1
  have g2 : ¬ dev.set_access cfg.access_type < 0 := not_lt.mpr h2
  have g3 : ¬ dev.set_format cfg.format < 0 := not_lt.mpr h3
  have g5 : ¬ dev.set_channels cfg.num_channels < 0 := not_lt.mpr h5
  have g7 : ¬ (dev.set_buffer_size (cfg.period_size * cfg.periods)).1 < 0 :=
    not_lt.mpr h7
  have g8 : ¬ dev.commit < 0 := not_lt.mpr h8
  refine ⟨?_, ?_, ?_, ?_⟩ <;>
    simp [configure_hw, h4, h6, g1, g2, g3, g5, g7, g8, S_SUCCESS]

/-- Witness for C5 at the all-accepting device and the playback example
configuration. -/
theorem configure_hw_accepting_eight_calls_witness :
    (0 : ℤ) ≤ acceptDev.params_any
    ∧ acceptDev.set_rate cfg0.sample_rate cfg0.sample_rate_direction
        = (0, cfg0.sample_rate)
    ∧ ((configure_hw acceptDev cfg0).err = S_SUCCESS
      ∧ (configure_hw acceptDev cfg0).trace
          = [Event.paramsAny, Event.setAccess cfg0.access_type,
             Event.setFormat cfg0.format,
             Event.setRate cfg0.sample_rate cfg0.sample_rate_direction,
             Event.setChannels cfg0.num_channels,
             Event.setPeriods cfg0.periods cfg0.frame_size_direction,
             Event.setBufferSize (cfg0.period_size * cfg0.periods),
             Event.commit]
      ∧ (configure_hw acceptDev cfg0).config.sample_rate = cfg0.sample_rate
      ∧ (configure_hw acceptDev cfg0).config.periods = cfg0.periods) :=
  ⟨by decide, by decide,
    configure_hw_accepting_eight_calls acceptDev cfg0 (by decide) (by decide)
      (by decide) (by decide) (by decide) (by decide) (by decide) (by decide)⟩

/-- Claim C4, counterexample: with a device that accepts every parameter
but reports rate 44100 instead of the requested 48000, the basic_pcm.c
variant of configure_hw returns success yet leaves the sample_rate field at
the requested 48000, storing the device-reported rate only in
exact_sample_rate — so the claim that the sample_rate field of the
configuration record holds the accepted rate on return fails on this code. -/
theorem basic_pcm_rate_field_counterexample :
    (basic_pcm_configure_hw rateDev bpCfg).err = S_SUCCESS
    ∧ (basic_pcm_configure_hw rateDev bpCfg).config.sample_rate = 48000
    ∧ (48000 : ℕ) ≠ 44100
    ∧ (basic_pcm_configure_hw rateDev bpCfg).config.exact_sample_rate = 44100
    ∧ Notice.rateWarning 48000 44100
        ∈ (basic_pcm_configure_hw rateDev bpCfg).notices := by
  decide

/-- Claim C4, amended: when rate negotiation accepts a rate different from
the requested one and no driver call fails, both configure_hw variants
return success and emit the non-fatal rate warning; the alsa_utils.c
configure_hw reports the accepted rate in the sample_rate field of the
record, while the basic_pcm.c duplicate stores it in exact_sample_rate and
leaves sample_rate at the requested value. In both, the rate stage aborts
only on a negative driver code, never merely because the rate differs. -/
theorem configure_hw_rate_mismatch_amended (devA devB : Device)
    (cfg : hw_configuration) (bcfg : basic_pcm_hw_configuration)
    (er er2 : ℤ) (r r2 : ℕ)
    (a1 : 0 ≤ devA.params_any)
    (a2 : 0 ≤ devA.set_access cfg.access_type)
    (a3 : 0 ≤ devA.set_format cfg.format)
    (a4 : devA.set_rate cfg.sample_rate cfg.sample_rate_direction = (er, r))
    (a4e : 0 ≤ er) (a4ne : r ≠ cfg.sample_rate)
    (a5 : 0 ≤ devA.set_channels cfg.num_channels)
    (a6 : 0 ≤ (devA.set_periods cfg.periods cfg.frame_size_direction).1)
    (a7 : 0 ≤ (devA.set_buffer_size (cfg.period_size
        * (devA.set_periods cfg.periods cfg.frame_size_direction).2)).1)
    (a8 : 0 ≤ devA.commit)
    (b1 : 0 ≤ devB.params_any)
    (b2 : 0 ≤ devB.set_access bcfg.access_type)
    (b3 : 0 ≤ devB.set_format bcfg.format)
    (b4 : devB.set_rate bcfg.sample_rate bcfg.sample_rate_direction
        = (er2, r2))
    (b4e : 0 ≤ er2) (b4ne : r2 ≠ bcfg.sample_rate)
    (b5 : 0 ≤ devB.set_channels bcfg.num_channels)
    (b6 : 0 ≤ (devB.set_periods bcfg.periods bcfg.frame_size_direction).1)
    (b7 : 0 ≤ (devB.set_buffer_size ((bcfg.period_size
        * (devB.set_periods bcfg.periods bcfg.frame_size_direction).2)
          >>> 2)).1)
    (b8 : 0 ≤ devB.commit) :
    ((configure_hw devA cfg).err = S_SUCCESS
      ∧ (configure_hw devA cfg).config.sample_rate = r
      ∧ Notice.rateWarning cfg.sample_rate r
          ∈ (configure_hw devA cfg).notices)
    ∧ ((basic_pcm_configure_hw devB bcfg).err = S_SUCCESS
      ∧ (basic_pcm_configure_hw devB bcfg).config.exact_sample_rate = r2
      ∧ (basic_pcm_configure_hw devB bcfg).config.sample_rate
          = bcfg.sample_rate
      ∧ Notice.rateWarning bcfg.sample_rate r2
          ∈ (basic_pcm_configure_hw devB bcfg).notices) := by
  have ga1 : ¬ devA.params_any < 0 := not_lt.mpr a1
  have ga2 : ¬ devA.set_access cfg.access_type < 0 := not_lt.mpr a2
  have ga3 : ¬ devA.set_format cfg.format < 0 := not_lt.mpr a3
  have ga4 : ¬ er < 0 := not_lt.mpr a4e
  have ga5 : ¬ devA.set_channels cfg.num_channels < 0 := not_lt.mpr a5
  have ga6 : ¬ (devA.set_periods cfg.periods cfg.frame_size_direction).1 < 0 :=
    not_lt.mpr a6
  have ga7 : ¬ (devA.set_buffer_size (cfg.period_size
      * (devA.set_periods cfg.periods cfg.frame_size_direction).2)).1 < 0 :=
    not_lt.mpr a7
  have ga8 : ¬ devA.commit < 0 := not_lt.mpr a8
  have gb1 : ¬ devB.params_any < 0 := not_lt.mpr b1
  have gb2 : ¬ devB.set_access bcfg.access_type < 0 := not_lt.mpr b2
  have gb3 : ¬ devB.set_format bcfg.format < 0 := not_lt.mpr b3
  have gb4 : ¬ er2 < 0 := not_lt.mpr b4e
  have gb5 : ¬ devB.set_channels bcfg.num_channels < 0 := not_lt.mpr b5
  have gb6 :
      ¬ (devB.set_periods bcfg.periods bcfg.frame_size_direction).1 < 0 :=
    not_lt.mpr b6
  have gb7 : ¬ (devB.set_buffer_size ((bcfg.period_size
      * (devB.set_periods bcfg.periods bcfg.frame_size_direction).2)
        >>> 2)).1 < 0 := not_lt.mpr b7
  have gb8 : ¬ devB.commit < 0 := not_lt.mpr b8
  have hbne : bcfg.sample_rate ≠ r2 := Ne.symm b4ne
  refine ⟨⟨?_, ?_, ?_⟩, ⟨?_, ?_, ?_, ?_⟩⟩ <;>
    simp [configure_hw, basic_pcm_configure_hw, a4, b4, a4ne, hbne,
      ga1, ga2, ga3, ga4, ga5, ga6, ga7, ga8,
      gb1, gb2, gb3, gb4, gb5, gb6, gb7, gb8, S_SUCCESS]

/-- Witness for the amended C4 at the rate-44100 device, with the two
example configurations. -/
theorem configure_hw_rate_mismatch_amended_witness :
    rateDev.set_rate cfg0.sample_rate cfg0.sample_rate_direction = (0, 44100)
    ∧ (44100 : ℕ) ≠ cfg0.sample_rate
    ∧ (((configure_hw rateDev cfg0).err = S_SUCCESS
      ∧ (configure_hw rateDev cfg0).config.sample_rate = 44100
      ∧ Notice.rateWarning cfg0.sample_rate 44100
          ∈ (configure_hw rateDev cfg0).notices)
    ∧ ((basic_pcm_configure_hw rateDev bpCfg).err = S_SUCCESS
      ∧ (basic_pcm_configure_hw rateDev bpCfg).config.exact_sample_rate
          = 44100
      ∧ (basic_pcm_configure_hw rateDev bpCfg).config.sample_rate
          = bpCfg.sample_rate
      ∧ Notice.rateWarning bpCfg.sample_rate 44100
          ∈ (basic_pcm_configure_hw rateDev bpCfg).notices)) :=
  ⟨by decide, by decide,
    configure_hw_rate_mismatch_amended rateDev rateDev cfg0 bpCfg 0 0
      44100 44100 (by decide) (by decide) (by decide) (by decide) (by decide)
      (by decide) (by decide) (by decide) (by decide) (by decide) (by decide)
      (by decide) (by decide) (by decide) (by decide) (by decide) (by decide)
      (by decide) (by decide) (by decide)⟩

/-- Claim C2: the buffer-size negotiation input. The alsa_utils.c
configure_hw submits exactly period_size*periods (here 1024*1 = 1024) and
never writes the negotiated size back into the record, matching the claim;
but the basic_pcm.c duplicate of configure_hw, at the same configuration
record (its own example values period_size = 1024, periods = 1), submits
(period_size*periods)>>2 = 256 instead of 1024 — an implicit scaling that
contradicts the claim, the doc comment directly above the call, and the
design notes of the spec, which flag the shifted variant as a defect. -/
theorem basic_pcm_buffer_size_shift_bug :
    Event.setBufferSize (cfg1024.period_size * cfg1024.periods)
        ∈ (configure_hw acceptDev cfg1024).trace
    ∧ cfg1024.period_size * cfg1024.periods = 1024
    ∧ (configure_hw acceptDev cfg1024).config.period_size
        = cfg1024.period_size
    ∧ Event.setBufferSize 256 ∈ (basic_pcm_configure_hw acceptDev bpCfg).trace
    ∧ Event.setBufferSize 1024
        ∉ (basic_pcm_configure_hw acceptDev bpCfg).trace
    ∧ bpCfg.period_size * bpCfg.periods = 1024
    ∧ (basic_pcm_configure_hw acceptDev bpCfg).config.period_size
        = bpCfg.period_size := by
  decide
